import Mathlib

/-!
Verification of the simDemo configuration / script-generation pipeline.

The development shallowly embeds the parts of `src/config.py` and
`src/ocean_generator.py` that the verified properties are about:

* `EDATool`, `EDASToolsConfig`, `ServerConfig`, `SimulationConfig` mirror the
  data classes of `config.py`; the derived properties `project_name`,
  `design_path` and `results_dir` mirror the corresponding `@property`
  methods.
* `validate_config` mirrors `ConfigReader.validate_config`; the filesystem is
  abstracted as an existence oracle `fs : String → Bool` standing for
  `os.path.exists`.
* `resolveTestbench` mirrors the testbench-resolution part of
  `ConfigReader.__init__`, and `getSimulationConfig` mirrors
  `ConfigReader.get_simulation_config`, with parsed YAML documents represented
  as records of optional sections.
* `generate_script` mirrors `OceanScriptGenerator.generate_script`; the
  Jinja2 template fragments live outside the embedded sources and are
  abstracted as opaque render functions in a `Templates` record.

Python strings are Lean `String`s; Python lists and (insertion-ordered)
dicts are Lean `List`s of pairs; numeric YAML scalars are rationals.
-/

namespace SimDemo

/-- Scalar values occurring in parsed YAML documents (analysis parameters,
design variables, ...): strings, integers and booleans.  `render` matches
Python `str()` on these values. -/
inductive PValue where
  | str (s : String)
  | int (n : Int)
  | bool (b : Bool)
deriving Repr, DecidableEq

def PValue.render : PValue → String
  | .str s => s
  | .int n => toString n
  | .bool b => if b then "True" else "False"

/-- The whitespace characters removed by Python `str.strip()`. -/
def pyWhitespace (c : Char) : Bool :=
  c == ' ' || c == '\t' || c == '\n' || c == '\r' || c == '\x0b' || c == '\x0c'

/-- Python `str.strip()`: drop leading and trailing whitespace. -/
def pyStrip (s : String) : String :=
  String.mk (((s.data.dropWhile pyWhitespace).reverse.dropWhile pyWhitespace).reverse)

/-- Python `str.startswith(pre)`. -/
def pyStartswith (s pre : String) : Bool :=
  pre.data.isPrefixOf s.data

/-- Python `str.upper()` (ASCII). -/
def pyUpper (s : String) : String :=
  String.mk (s.data.map Char.toUpper)

/-- `os.path.basename` for POSIX paths: the part after the last slash. -/
def basename (p : String) : String :=
  (p.splitOn "/").getLastD ""

/-- Drop trailing slashes from a character list. -/
def rstripSlash (l : List Char) : List Char :=
  (l.reverse.dropWhile (fun c => c == '/')).reverse

/-- `os.path.dirname` for POSIX paths. -/
def dirname (p : String) : String :=
  let head := (p.data.reverse.dropWhile (fun c => c != '/')).reverse
  if head.isEmpty then ""
  else if head.all (fun c => c == '/') then String.mk head
  else String.mk (rstripSlash head)

/-- `os.path.join` for POSIX paths (two arguments). -/
def joinPath (a b : String) : String :=
  if pyStartswith b "/" then b
  else if a = "" || a.endsWith "/" then a ++ b
  else a ++ "/" ++ b

/-- `config.py` `ServerConfig`. -/
structure ServerConfig where
  url : String
  api_key : String
deriving Repr, DecidableEq

/-- `config.py` `EDATool`: per-simulator launch metadata. -/
structure EDATool where
  executable : String
  launch_args : List String
  environment_variables : List String
  options : List (String × PValue)
deriving Repr, DecidableEq

/-- The `EDATool()` default constructor. -/
def EDATool.default : EDATool :=
  ⟨"", [], [], []⟩

/-- Loop body of `EDATool.get_source_commands`: keep the stripped lines that
start with `"source "`. -/
def sourceCommandsAux : List String → List String
  | [] => []
  | l :: ls =>
    let s := pyStrip l
    if pyStartswith s "source " then s :: sourceCommandsAux ls
    else sourceCommandsAux ls

/-- `EDATool.get_source_commands`. -/
def EDATool.get_source_commands (t : EDATool) : List String :=
  sourceCommandsAux t.environment_variables

/-- Loop body of `EDATool.get_export_commands`: skip `source` lines, prepend
`"export "` to the remaining stripped lines when missing. -/
def exportCommandsAux : List String → List String
  | [] => []
  | l :: ls =>
    let s := pyStrip l
    if pyStartswith s "source " then exportCommandsAux ls
    else (if pyStartswith s "export " then s else "export " ++ s) :: exportCommandsAux ls

/-- `EDATool.get_export_commands`. -/
def EDATool.get_export_commands (t : EDATool) : List String :=
  exportCommandsAux t.environment_variables

/-- `config.py` `EDASToolsConfig`: one `EDATool` per supported simulator. -/
structure EDASToolsConfig where
  spectre : EDATool
  virtuoso : EDATool
deriving Repr, DecidableEq

/-- The `EDASToolsConfig()` default constructor. -/
def EDASToolsConfig.default : EDASToolsConfig :=
  ⟨EDATool.default, EDATool.default⟩

/-- `EDASToolsConfig.get_tool_config`: `getattr(self, tool_name, None)`,
which resolves exactly the attributes `spectre` and `virtuoso`. -/
def EDASToolsConfig.get_tool_config (c : EDASToolsConfig) (tool_name : String) : Option EDATool :=
  if tool_name = "spectre" then some c.spectre
  else if tool_name = "virtuoso" then some c.virtuoso
  else none

/-- One entry of `SimulationConfig.model_files` as it arrives from YAML:
either a list (expected `[path, corner]`) or a bare scalar. -/
inductive ModelEntry where
  | list (items : List String)
  | scalar (s : String)
deriving Repr, DecidableEq

/-- Post-processing configuration (a non-empty `post_processing` mapping):
the fields read by the generator via `post_config.get`. -/
structure PostProcessing where
  plot_enabled : Bool
  plots : List (List (String × PValue))
  save_data : Bool
  save_items : List (List (String × PValue))
deriving Repr, DecidableEq

/-- `config.py` `SimulationConfig` (stored fields only; `project_name`,
`design_path` and `results_dir` are derived below).  `post_processing = none`
stands for the default empty (falsy) mapping. -/
structure SimulationConfig where
  simulator : String
  project_dir : String
  library_name : String
  cell_name : String
  simulation_path : String
  design_type : String
  eda_tools : EDASToolsConfig
  model_files : List ModelEntry
  analyses : List (String × List (String × PValue))
  stimulus_files : List String
  design_variables : List (String × PValue)
  save_nodes : List String
  temperature : Rat
  supply_voltage : Rat
  server : ServerConfig
  initial_conditions : List (String × PValue)
  post_processing : Option PostProcessing
deriving Repr, DecidableEq

/-- The `SimulationConfig()` default constructor. -/
def SimulationConfig.default : SimulationConfig :=
  { simulator := "spectre"
    project_dir := ""
    library_name := ""
    cell_name := ""
    simulation_path := ""
    design_type := "schematic"
    eda_tools := EDASToolsConfig.default
    model_files := []
    analyses := []
    stimulus_files := []
    design_variables := []
    save_nodes := []
    temperature := 27
    supply_voltage := 9/5
    server := ⟨"", ""⟩
    initial_conditions := []
    post_processing := none }

/-- `SimulationConfig.project_name`: basename of `project_dir` when that is
non-empty (truthy), otherwise the fallback `"sim_project"`. -/
def SimulationConfig.project_name (c : SimulationConfig) : String :=
  if c.project_dir ≠ "" then basename c.project_dir else "sim_project"

/-- `SimulationConfig.design_path`: empty unless all four path components are
non-empty (`all([...])` over truthiness). -/
def SimulationConfig.design_path (c : SimulationConfig) : String :=
  if c.simulation_path = "" ∨ c.cell_name = "" ∨ c.simulator = "" ∨ c.design_type = "" then ""
  else c.simulation_path ++ "/" ++ c.cell_name ++ "/" ++ c.simulator ++ "/" ++
    c.design_type ++ "/netlist/netlist"

/-- `SimulationConfig.results_dir`: empty unless all four path components are
non-empty. -/
def SimulationConfig.results_dir (c : SimulationConfig) : String :=
  if c.simulation_path = "" ∨ c.cell_name = "" ∨ c.simulator = "" ∨ c.design_type = "" then ""
  else c.simulation_path ++ "/" ++ c.cell_name ++ "/" ++ c.simulator ++ "/" ++ c.design_type

/-! ## Parsed YAML documents and `ConfigReader`

Parsed YAML mappings are represented as records of optional sections; a
missing key is `none`, and `dict.get(key, default)` becomes `Option.getD`. -/

/-- The `simulation` section of a task config file. -/
structure SimSection where
  simulator : Option String
  project_dir : Option String
  library_name : Option String
  cell_name : Option String
  simulation_path : Option String
  design_type : Option String
  temperature : Option Rat
  supply_voltage : Option Rat
deriving Repr, DecidableEq

/-- A parsed task config file: the keys read by `ConfigReader`. -/
structure TaskData where
  simulation : Option SimSection
  testbench_config : Option String
deriving Repr, DecidableEq

/-- The `environment` section of a testbench config file. -/
structure EnvSection where
  temperature : Option Rat
  supply_voltage : Option Rat
deriving Repr, DecidableEq

/-- The `models` section of a testbench config file. -/
structure ModelsSection where
  files : Option (List ModelEntry)
deriving Repr, DecidableEq

/-- The `stimulus` section of a testbench config file. -/
structure StimulusSection where
  files : Option (List String)
deriving Repr, DecidableEq

/-- The `outputs` section of a testbench config file. -/
structure OutputsSection where
  save_nodes : Option (List String)
deriving Repr, DecidableEq

/-- A parsed testbench config file: the keys read by
`get_simulation_config` (`variablesSec` models the `variables` key, whose
name is reserved in Lean). -/
structure TestbenchData where
  models : Option ModelsSection
  analyses : Option (List (String × List (String × PValue)))
  stimulus : Option StimulusSection
  variablesSec : Option (List (String × PValue))
  outputs : Option OutputsSection
  initial_conditions : Option (List (String × PValue))
  environment : Option EnvSection
  post_processing : Option PostProcessing
deriving Repr, DecidableEq

/-- The empty testbench document `{}` (the initial value of
`self.testbench_config_data`). -/
def TestbenchData.default : TestbenchData :=
  ⟨none, none, none, none, none, none, none, none⟩

/-- One tool entry under `eda_tools` in the system config file. -/
structure EDAToolData where
  executable : Option String
  launch_args : Option (List String)
  environment_variables : Option (List String)
  options : Option (List (String × PValue))
deriving Repr, DecidableEq

/-- The `eda_tools` section of the system config file. -/
structure EdaToolsSection where
  spectre : Option EDAToolData
  virtuoso : Option EDAToolData
deriving Repr, DecidableEq

/-- The `server` section of the system config file. -/
structure ServerSection where
  url : Option String
  api_key : Option String
deriving Repr, DecidableEq

/-- A parsed system config file. -/
structure SystemData where
  eda_tools : Option EdaToolsSection
  server : Option ServerSection
deriving Repr, DecidableEq

/-- Read a field of an optional section with a default:
`data.get('section', {}).get(field, default)`. -/
def optGet {α β : Type} (o : Option α) (f : α → Option β) (d : β) : β :=
  match o with
  | some a => (f a).getD d
  | none => d

/-- Build an `EDATool` from a system-config tool entry (the `EDATool(...)`
constructor call with `.get` defaults). -/
def mkEDATool (d : EDAToolData) : EDATool :=
  ⟨d.executable.getD "", d.launch_args.getD [], d.environment_variables.getD [],
   d.options.getD []⟩

/-- `ConfigReader.get_simulation_config`: build the merged configuration
from the system document, the task document and the testbench document.
Task-level `temperature`/`supply_voltage` are set first and overwritten by
the testbench `environment` section whenever that section is present. -/
def get_simulation_config (sysd : SystemData) (task : TaskData) (tb : TestbenchData) :
    SimulationConfig :=
  { simulator := optGet task.simulation SimSection.simulator "spectre"
    project_dir := optGet task.simulation SimSection.project_dir ""
    library_name := optGet task.simulation SimSection.library_name ""
    cell_name := optGet task.simulation SimSection.cell_name ""
    simulation_path := optGet task.simulation SimSection.simulation_path ""
    design_type := optGet task.simulation SimSection.design_type "schematic"
    eda_tools :=
      match sysd.eda_tools with
      | some e =>
        ⟨(match e.spectre with | some d => mkEDATool d | none => EDATool.default),
         (match e.virtuoso with | some d => mkEDATool d | none => EDATool.default)⟩
      | none => EDASToolsConfig.default
    server :=
      match sysd.server with
      | some s => ⟨s.url.getD "", s.api_key.getD ""⟩
      | none => ⟨"", ""⟩
    model_files := match tb.models with | some m => m.files.getD [] | none => []
    analyses := tb.analyses.getD []
    stimulus_files := match tb.stimulus with | some s => s.files.getD [] | none => []
    design_variables := tb.variablesSec.getD []
    save_nodes := match tb.outputs with | some o => o.save_nodes.getD [] | none => []
    temperature :=
      match tb.environment with
      | some e => e.temperature.getD 27
      | none => optGet task.simulation SimSection.temperature 27
    supply_voltage :=
      match tb.environment with
      | some e => e.supply_voltage.getD (9/5)
      | none => optGet task.simulation SimSection.supply_voltage (9/5)
    initial_conditions := tb.initial_conditions.getD []
    post_processing := tb.post_processing }

/-- The testbench-resolution step of `ConfigReader.__init__`: try the
`testbench_config` path as given, then relative to the task file's
directory; when neither exists, keep the empty testbench document (no
exception is raised).  `loadTb` stands for `self._load_config`, which may
fail (unsupported extension, YAML error). -/
def resolveTestbench (fsExists : String → Bool)
    (loadTb : String → Except String TestbenchData)
    (config_file : String) (task : TaskData) : Except String TestbenchData :=
  match task.testbench_config with
  | none => Except.ok TestbenchData.default
  | some p =>
    if p = "" then Except.ok TestbenchData.default
    else
      let f := if fsExists p then p else joinPath (dirname config_file) p
      if fsExists f then loadTb f else Except.ok TestbenchData.default

/-! ## Script generation (`OceanScriptGenerator`)

Modelled from the spec: the Jinja2 template fragments under
`templates/ocean/` are not part of the embedded sources; they are
represented as opaque render functions collected in a `Templates` record.
`analysisFragment ty` is `some render` when a fragment template named
`analysis_<ty>` exists and `none` when `_load_template` would fail for it. -/
structure Templates where
  header : String → String
  simulator : String → String
  design : String → String
  results_dir : String → String
  model_file : List ModelEntry → String
  stimulus : List String → String
  design_variables : List (String × PValue) → String
  analysisFragment : String → Option (List (String × PValue) → String)
  save_nodes : List String → String
  initial_conditions : List (String × PValue) → String
  environment : Rat → String
  run : String
  post_processing : String → Bool → List (List (String × PValue)) → Bool →
    List (List (String × PValue)) → String

/-- One parameter line of `_add_generic_analysis`: strings are double-quoted,
any other value is rendered bare. -/
def genericParamLine (param : String) : PValue → String
  | .str s => "         ?" ++ param ++ " \"" ++ s ++ "\"\n"
  | v => "         ?" ++ param ++ " " ++ v.render ++ "\n"

/-- `OceanScriptGenerator._add_generic_analysis`: the generic fallback block
for an analysis type without a matching template fragment. -/
def generic_analysis (analysis_type : String) (params : List (String × PValue)) : String :=
  "; " ++ pyUpper analysis_type ++ " analysis configuration\n" ++
  "analysis('" ++ analysis_type ++ "\n" ++
  String.join (params.map (fun pv => genericParamLine pv.1 pv.2)) ++
  ")\n"

/-- Body of the `_add_analyses` loop for one analysis: render the
type-specific fragment when it exists, otherwise the generic fallback. -/
def renderAnalysis (tm : Templates) (analysis_type : String)
    (params : List (String × PValue)) : String :=
  match tm.analysisFragment analysis_type with
  | some render => render params
  | none => generic_analysis analysis_type params

/-- `OceanScriptGenerator._add_analyses`: one block per configured analysis,
in declaration order. -/
def add_analyses (tm : Templates) (analyses : List (String × List (String × PValue))) :
    List String :=
  analyses.map (fun a => renderAnalysis tm a.1 a.2)

/-- The `selectResult` context of `_add_post_processing`: the first declared
analysis type, defaulting to `tran`. -/
def main_analysis (c : SimulationConfig) : String :=
  match c.analyses with
  | [] => "tran"
  | (t, _) :: _ => t

/-- The fragments appended to `self.script_content` by `generate_script`, in
the fixed source order (steps 1–13; conditional sections are omitted when
their configuration is empty/falsy).  The on-disk creation of the results
directory in `_add_results_dir` is a side effect outside this model. -/
def script_list (tm : Templates) (c : SimulationConfig) : List String :=
  [tm.header c.project_name, tm.simulator c.simulator, tm.design c.design_path,
   tm.results_dir c.results_dir] ++
  (if c.model_files = [] then [] else [tm.model_file c.model_files]) ++
  (if c.stimulus_files = [] then [] else [tm.stimulus c.stimulus_files]) ++
  (if c.design_variables = [] then [] else [tm.design_variables c.design_variables]) ++
  add_analyses tm c.analyses ++
  (if c.save_nodes = [] then [] else [tm.save_nodes c.save_nodes]) ++
  (if c.initial_conditions = [] then [] else [tm.initial_conditions c.initial_conditions]) ++
  [tm.environment c.temperature, tm.run] ++
  (match c.post_processing with
   | some pp =>
     [tm.post_processing (main_analysis c) pp.plot_enabled pp.plots pp.save_data pp.save_items]
   | none => [])

/-- The generator's mutable state: `self.script_content`. -/
structure GenState where
  script_content : List String

/-- `OceanScriptGenerator.generate_script`: the method starts with
`self.script_content = []`, so the fragments of the incoming state are
discarded and the result is `script_list` joined with newlines. -/
def generate_script (tm : Templates) (c : SimulationConfig) (st : GenState) :
    String × GenState :=
  let content := script_list tm c
  (String.intercalate "\n" content, GenState.mk content)

end SimDemo

namespace SimDemo

/-! ## Theorems for claims C1, C2, C3 -/

/-- The example tool of the spec: environment lines
`["source /opt/setup.sh", "export FOO=bar"]`. -/
def exampleTool : EDATool :=
  ⟨"", [], ["source /opt/setup.sh", "export FOO=bar"], []⟩

theorem sourceCommandsAux_eq (ls : List String) :
    sourceCommandsAux ls = (ls.map pyStrip).filter (fun l => pyStartswith l "source ") := by
  induction ls with
  | nil => rfl
  | cons l ls ih =>
    simp only [sourceCommandsAux, List.map_cons, List.filter_cons]
    by_cases h : pyStartswith (pyStrip l) "source " <;> simp [h, ih]

theorem exportCommandsAux_eq (ls : List String) :
    exportCommandsAux ls =
      ((ls.map pyStrip).filter (fun l => !pyStartswith l "source ")).map
        (fun l => if pyStartswith l "export " then l else "export " ++ l) := by
  induction ls with
  | nil => rfl
  | cons l ls ih =>
    simp only [exportCommandsAux, List.map_cons, List.filter_cons]
    by_cases h : pyStartswith (pyStrip l) "source " <;> simp [h, ih]

/-- C1: for every `SimulationConfig` whose `simulation_path`, `cell_name`,
`simulator` and `design_type` are all non-empty, `design_path` is the four
components joined with `/` followed by the literal suffix
`/netlist/netlist`; if any of the four is empty, `design_path` is `""`. -/
theorem design_path_spec (c : SimulationConfig) :
    (c.simulation_path ≠ "" → c.cell_name ≠ "" → c.simulator ≠ "" → c.design_type ≠ "" →
      c.design_path = c.simulation_path ++ "/" ++ c.cell_name ++ "/" ++ c.simulator ++ "/" ++
        c.design_type ++ "/netlist/netlist")
    ∧ ((c.simulation_path = "" ∨ c.cell_name = "" ∨ c.simulator = "" ∨ c.design_type = "") →
      c.design_path = "") := by
  constructor
  · intro h1 h2 h3 h4
    simp [SimulationConfig.design_path, h1, h2, h3, h4]
  · intro h
    simp [SimulationConfig.design_path, h]

/-- Witness for C1 at a concrete configuration. -/
theorem design_path_spec_witness :
    ({ SimulationConfig.default with
        simulation_path := "/sim", cell_name := "inv", simulator := "spectre",
        design_type := "schematic" } : SimulationConfig).design_path =
      "/sim/inv/spectre/schematic/netlist/netlist"
    ∧ ({ SimulationConfig.default with cell_name := "inv" } : SimulationConfig).design_path = "" := by
  refine ⟨(design_path_spec _).1 ?_ ?_ ?_ ?_, (design_path_spec _).2 (Or.inl rfl)⟩ <;> decide

/-- A configuration with empty `project_dir` (all other fields default). -/
def emptyProjConfig : SimulationConfig := SimulationConfig.default

/-- C2 counterexample: with `project_dir = ""`, the derived `project_name` is
`"sim_project"`, not the empty string claimed by the invariant. -/
theorem project_name_counterexample :
    emptyProjConfig.project_dir = "" ∧
    emptyProjConfig.project_name = "sim_project" ∧
    ¬ emptyProjConfig.project_name = "" := by
  refine ⟨rfl, rfl, ?_⟩
  decide

/-- C2 (amended): `design_path` and `results_dir` collapse to `""` whenever
any of their four contributing components is empty, while `project_name`
falls back to the default name `"sim_project"` (not `""`) when `project_dir`
is empty. -/
theorem derived_fields_on_empty_components (c : SimulationConfig) :
    ((c.simulation_path = "" ∨ c.cell_name = "" ∨ c.simulator = "" ∨ c.design_type = "") →
      c.design_path = "" ∧ c.results_dir = "")
    ∧ (c.project_dir = "" → c.project_name = "sim_project") := by
  constructor
  · intro h
    constructor
    · simp [SimulationConfig.design_path, h]
    · simp [SimulationConfig.results_dir, h]
  · intro h
    simp [SimulationConfig.project_name, h]

/-- Witness for the amended C2 at a concrete configuration. -/
theorem derived_fields_on_empty_components_witness :
    (SimulationConfig.default.design_path = "" ∧ SimulationConfig.default.results_dir = "")
    ∧ SimulationConfig.default.project_name = "sim_project" :=
  ⟨(derived_fields_on_empty_components SimulationConfig.default).1 (Or.inl rfl),
   (derived_fields_on_empty_components SimulationConfig.default).2 rfl⟩

/-! ## Validation (`ConfigReader.validate_config`)

The checks below mirror, in order, the sequential `errors.append` blocks of
`validate_config`; the whole function is their concatenation.  `fs` is the
`os.path.exists` oracle.  The guard `if config.eda_tools:` of the source is
always true (the field always holds an object), so the tool block runs
unconditionally. -/

def checkProjectDir (fs : String → Bool) (c : SimulationConfig) : List String :=
  if c.project_dir = "" then ["Project directory (project_dir) cannot be empty"]
  else if fs c.project_dir = false then ["Project directory does not exist: " ++ c.project_dir]
  else []

def checkSimulationPath (c : SimulationConfig) : List String :=
  if c.simulation_path = "" then ["Simulation path (simulation_path) cannot be empty"] else []

def checkLibraryName (c : SimulationConfig) : List String :=
  if c.library_name = "" then ["Library name (library_name) cannot be empty"] else []

def checkCellName (c : SimulationConfig) : List String :=
  if c.cell_name = "" then ["Cell name (cell_name) cannot be empty"] else []

def checkDesignPath (fs : String → Bool) (c : SimulationConfig) : List String :=
  if c.design_path ≠ "" ∧ fs c.design_path = false then
    ["Design file does not exist (computed path): " ++ c.design_path]
  else []

/-- One iteration of the model-file loop: only entries that are lists with at
least one element are checked (`isinstance(..., list) and len(...) >= 1`). -/
def checkModelEntry (fs : String → Bool) : ModelEntry → List String
  | .list (p :: _) => if fs p = false then ["Model file does not exist: " ++ p] else []
  | .list [] => []
  | .scalar _ => []

def checkModelFiles (fs : String → Bool) (c : SimulationConfig) : List String :=
  (c.model_files.map (checkModelEntry fs)).flatten

def checkStimulusFiles (fs : String → Bool) (c : SimulationConfig) : List String :=
  (c.stimulus_files.map
    (fun p => if fs p = false then ["Stimulus file does not exist: " ++ p] else [])).flatten

def checkAnalyses (c : SimulationConfig) : List String :=
  if c.analyses = [] then ["At least one analysis type must be configured"] else []

def checkSimulator (c : SimulationConfig) : List String :=
  if c.simulator = "spectre" ∨ c.simulator = "virtuoso" then []
  else ["Unsupported simulator: " ++ c.simulator]

def checkEdaTools (c : SimulationConfig) : List String :=
  match c.eda_tools.get_tool_config c.simulator with
  | some t =>
    (if t.executable = "" then
       ["Executable command not configured for simulator: " ++ c.simulator] else []) ++
    (if t.environment_variables = [] then
       ["No environment variables configured for simulator: " ++ c.simulator] else [])
  | none => ["No tool configuration found for simulator: " ++ c.simulator]

/-- The checks of `validate_config` that follow the project-directory check,
in source order. -/
def tailChecks (fs : String → Bool) (c : SimulationConfig) : List String :=
  checkSimulationPath c ++ checkLibraryName c ++ checkCellName c ++
  checkDesignPath fs c ++ checkModelFiles fs c ++ checkStimulusFiles fs c ++
  checkAnalyses c ++ checkSimulator c ++ checkEdaTools c

/-- `ConfigReader.validate_config`: all checks, in source order, accumulated
into one error list. -/
def validate_config (fs : String → Bool) (c : SimulationConfig) : List String :=
  checkProjectDir fs c ++ tailChecks fs c

theorem string_data_append (a b : String) : (a ++ b).data = a.data ++ b.data := by
  cases a
  cases b
  rfl

theorem isPrefixOf_append_self (l m : List Char) : l.isPrefixOf (l ++ m) = true := by
  induction l with
  | nil => cases m <;> rfl
  | cons c cs ih => simp [List.isPrefixOf, ih]

/-- If the character list of `a` is not a prefix of that of `b`, then no
extension of `a` equals `b`. -/
theorem append_ne_of_not_prefixData (a b : String)
    (h : a.data.isPrefixOf b.data = false) : ∀ p : String, a ++ p ≠ b := by
  intro p heq
  have h2 : (a ++ p).data = b.data := congrArg String.data heq
  rw [string_data_append] at h2
  rw [← h2, isPrefixOf_append_self] at h
  exact Bool.noConfusion h

/-- If neither of two fixed strings is a data-prefix of the other, no
extensions of them are equal. -/
theorem append_ne_append_of_not_prefix (a b : String)
    (h1 : a.data.isPrefixOf b.data = false) (h2 : b.data.isPrefixOf a.data = false) :
    ∀ p q : String, a ++ p ≠ b ++ q := by
  intro p q heq
  have h3 : a.data ++ p.data = b.data ++ q.data := by
    have h4 := congrArg String.data heq
    rwa [string_data_append, string_data_append] at h4
  rcases List.append_eq_append_iff.mp h3 with ⟨r, hr, _⟩ | ⟨r, hr, _⟩
  · rw [hr, isPrefixOf_append_self] at h1
    exact Bool.noConfusion h1
  · rw [hr, isPrefixOf_append_self] at h2
    exact Bool.noConfusion h2

/-- Every error produced by the checks after the project-directory check has
one of the following shapes. -/
theorem mem_tailChecks_shapes (fs : String → Bool) (c : SimulationConfig) (e : String)
    (he : e ∈ tailChecks fs c) :
    e = "Simulation path (simulation_path) cannot be empty" ∨
    e = "Library name (library_name) cannot be empty" ∨
    e = "Cell name (cell_name) cannot be empty" ∨
    (∃ p, e = "Design file does not exist (computed path): " ++ p) ∨
    (∃ p, e = "Model file does not exist: " ++ p) ∨
    (∃ p, e = "Stimulus file does not exist: " ++ p) ∨
    e = "At least one analysis type must be configured" ∨
    (∃ p, e = "Unsupported simulator: " ++ p) ∨
    (∃ p, e = "Executable command not configured for simulator: " ++ p) ∨
    (∃ p, e = "No environment variables configured for simulator: " ++ p) ∨
    (∃ p, e = "No tool configuration found for simulator: " ++ p) := by
  simp only [tailChecks, List.mem_append] at he
  rcases he with ((((((((h | h) | h) | h) | h) | h) | h) | h) | h)
  · left
    unfold checkSimulationPath at h
    split at h <;> simp_all
  · right; left
    unfold checkLibraryName at h
    split at h <;> simp_all
  · right; right; left
    unfold checkCellName at h
    split at h <;> simp_all
  · right; right; right; left
    unfold checkDesignPath at h
    split at h <;> simp_all
  · right; right; right; right; left
    unfold checkModelFiles at h
    rw [List.mem_flatten] at h
    obtain ⟨l, hl, hel⟩ := h
    rw [List.mem_map] at hl
    obtain ⟨entry, _, rfl⟩ := hl
    cases entry with
    | scalar s => simp [checkModelEntry] at hel
    | list items =>
      cases items with
      | nil => simp [checkModelEntry] at hel
      | cons p rest =>
        simp only [checkModelEntry] at hel
        split at hel <;> simp_all
  · right; right; right; right; right; left
    unfold checkStimulusFiles at h
    rw [List.mem_flatten] at h
    obtain ⟨l, hl, hel⟩ := h
    rw [List.mem_map] at hl
    obtain ⟨p, _, rfl⟩ := hl
    split at hel <;> simp_all
  · right; right; right; right; right; right; left
    unfold checkAnalyses at h
    split at h <;> simp_all
  · right; right; right; right; right; right; right; left
    unfold checkSimulator at h
    split at h <;> simp_all
  · right; right; right; right; right; right; right; right
    unfold checkEdaTools at h
    split at h
    · rw [List.mem_append] at h
      rcases h with h | h
      · left
        split at h <;> simp_all
      · right; left
        split at h <;> simp_all
    · right; right
      simp_all

/-- The empty-project-directory error never comes from the later checks. -/
theorem projEmptyMsg_not_mem_tailChecks (fs : String → Bool) (c : SimulationConfig) :
    "Project directory (project_dir) cannot be empty" ∉ tailChecks fs c := by
  intro hm
  rcases mem_tailChecks_shapes fs c _ hm with
    h | h | h | ⟨p, h⟩ | ⟨p, h⟩ | ⟨p, h⟩ | h | ⟨p, h⟩ | ⟨p, h⟩ | ⟨p, h⟩ | ⟨p, h⟩
  · exact absurd h (by decide)
  · exact absurd h (by decide)
  · exact absurd h (by decide)
  · exact append_ne_of_not_prefixData "Design file does not exist (computed path): " _
      (by decide) p h.symm
  · exact append_ne_of_not_prefixData "Model file does not exist: " _ (by decide) p h.symm
  · exact append_ne_of_not_prefixData "Stimulus file does not exist: " _ (by decide) p h.symm
  · exact absurd h (by decide)
  · exact append_ne_of_not_prefixData "Unsupported simulator: " _ (by decide) p h.symm
  · exact append_ne_of_not_prefixData "Executable command not configured for simulator: " _
      (by decide) p h.symm
  · exact append_ne_of_not_prefixData "No environment variables configured for simulator: " _
      (by decide) p h.symm
  · exact append_ne_of_not_prefixData "No tool configuration found for simulator: " _
      (by decide) p h.symm

/-- The missing-project-directory error never comes from the later checks. -/
theorem projMissingMsg_not_mem_tailChecks (fs : String → Bool) (c : SimulationConfig)
    (q : String) :
    ("Project directory does not exist: " ++ q) ∉ tailChecks fs c := by
  intro hm
  rcases mem_tailChecks_shapes fs c _ hm with
    h | h | h | ⟨p, h⟩ | ⟨p, h⟩ | ⟨p, h⟩ | h | ⟨p, h⟩ | ⟨p, h⟩ | ⟨p, h⟩ | ⟨p, h⟩
  · exact append_ne_of_not_prefixData "Project directory does not exist: " _ (by decide) q h
  · exact append_ne_of_not_prefixData "Project directory does not exist: " _ (by decide) q h
  · exact append_ne_of_not_prefixData "Project directory does not exist: " _ (by decide) q h
  · exact append_ne_append_of_not_prefix "Project directory does not exist: "
      "Design file does not exist (computed path): " (by decide) (by decide) q p h
  · exact append_ne_append_of_not_prefix "Project directory does not exist: "
      "Model file does not exist: " (by decide) (by decide) q p h
  · exact append_ne_append_of_not_prefix "Project directory does not exist: "
      "Stimulus file does not exist: " (by decide) (by decide) q p h
  · exact append_ne_of_not_prefixData "Project directory does not exist: " _ (by decide) q h
  · exact append_ne_append_of_not_prefix "Project directory does not exist: "
      "Unsupported simulator: " (by decide) (by decide) q p h
  · exact append_ne_append_of_not_prefix "Project directory does not exist: "
      "Executable command not configured for simulator: " (by decide) (by decide) q p h
  · exact append_ne_append_of_not_prefix "Project directory does not exist: "
      "No environment variables configured for simulator: " (by decide) (by decide) q p h
  · exact append_ne_append_of_not_prefix "Project directory does not exist: "
      "No tool configuration found for simulator: " (by decide) (by decide) q p h

/-- C4: with an empty `project_dir`, `validate_config` yields exactly one
error referencing the project directory — the empty-`project_dir` message,
placed in front of all the other checks' errors, which still accumulate
(no check short-circuits another). -/
theorem validate_config_accumulates (fs : String → Bool) (c : SimulationConfig)
    (h : c.project_dir = "") :
    validate_config fs c =
      "Project directory (project_dir) cannot be empty" :: tailChecks fs c
    ∧ (validate_config fs c).count "Project directory (project_dir) cannot be empty" = 1
    ∧ (∀ q, ("Project directory does not exist: " ++ q) ∉ validate_config fs c)
    ∧ (c.simulation_path = "" →
        "Simulation path (simulation_path) cannot be empty" ∈ validate_config fs c)
    ∧ (c.library_name = "" →
        "Library name (library_name) cannot be empty" ∈ validate_config fs c)
    ∧ (c.cell_name = "" →
        "Cell name (cell_name) cannot be empty" ∈ validate_config fs c)
    ∧ (c.analyses = [] →
        "At least one analysis type must be configured" ∈ validate_config fs c) := by
  have hd : validate_config fs c =
      "Project directory (project_dir) cannot be empty" :: tailChecks fs c := by
    simp [validate_config, checkProjectDir, h]
  refine ⟨hd, ?_, ?_, ?_, ?_, ?_, ?_⟩
  · rw [hd, List.count_cons_self,
      List.count_eq_zero.mpr (projEmptyMsg_not_mem_tailChecks fs c)]
  · intro q hq
    rw [hd, List.mem_cons] at hq
    rcases hq with hq | hq
    · exact append_ne_of_not_prefixData "Project directory does not exist: " _ (by decide) q hq
    · exact projMissingMsg_not_mem_tailChecks fs c q hq
  · intro hsp
    rw [hd]
    refine List.mem_cons_of_mem _ ?_
    simp [tailChecks, checkSimulationPath, hsp]
  · intro hl
    rw [hd]
    refine List.mem_cons_of_mem _ ?_
    simp [tailChecks, checkLibraryName, hl]
  · intro hc
    rw [hd]
    refine List.mem_cons_of_mem _ ?_
    simp [tailChecks, checkCellName, hc]
  · intro ha
    rw [hd]
    refine List.mem_cons_of_mem _ ?_
    simp [tailChecks, checkAnalyses, ha]

/-- Witness for C4: the all-defaults configuration (empty `project_dir`,
empty `library_name`, no analyses) with an all-false existence oracle. -/
theorem validate_config_accumulates_witness :
    (validate_config (fun _ => false) SimulationConfig.default).count
      "Project directory (project_dir) cannot be empty" = 1
    ∧ "Library name (library_name) cannot be empty" ∈
        validate_config (fun _ => false) SimulationConfig.default
    ∧ "At least one analysis type must be configured" ∈
        validate_config (fun _ => false) SimulationConfig.default := by
  have h := validate_config_accumulates (fun _ => false) SimulationConfig.default rfl
  exact ⟨h.2.1, h.2.2.2.2.1 rfl, h.2.2.2.2.2.2 rfl⟩

/-- C8: `validate_config` checks existence of every listed model file
(entries shaped as a non-empty list, whose head is the path) and of every
stimulus file, reporting one error naming the path for each missing one; in
addition it reports a missing project directory, a missing computed design
path, an unset tool executable and empty tool environment lines. -/
theorem validate_config_checks_files (fs : String → Bool) (c : SimulationConfig) :
    (∀ p rest, ModelEntry.list (p :: rest) ∈ c.model_files → fs p = false →
      ("Model file does not exist: " ++ p) ∈ validate_config fs c)
    ∧ (∀ p, p ∈ c.stimulus_files → fs p = false →
      ("Stimulus file does not exist: " ++ p) ∈ validate_config fs c)
    ∧ (c.project_dir ≠ "" → fs c.project_dir = false →
      ("Project directory does not exist: " ++ c.project_dir) ∈ validate_config fs c)
    ∧ (c.design_path ≠ "" → fs c.design_path = false →
      ("Design file does not exist (computed path): " ++ c.design_path) ∈ validate_config fs c)
    ∧ (∀ t, c.eda_tools.get_tool_config c.simulator = some t → t.executable = "" →
      ("Executable command not configured for simulator: " ++ c.simulator) ∈
        validate_config fs c)
    ∧ (∀ t, c.eda_tools.get_tool_config c.simulator = some t → t.environment_variables = [] →
      ("No environment variables configured for simulator: " ++ c.simulator) ∈
        validate_config fs c) := by
  refine ⟨?_, ?_, ?_, ?_, ?_, ?_⟩
  · intro p rest hmem hfs
    have hm : ("Model file does not exist: " ++ p) ∈ checkModelFiles fs c := by
      simp only [checkModelFiles, List.mem_flatten]
      refine ⟨["Model file does not exist: " ++ p], ?_, by simp⟩
      rw [List.mem_map]
      exact ⟨ModelEntry.list (p :: rest), hmem, by simp [checkModelEntry, hfs]⟩
    simp [validate_config, tailChecks, List.mem_append, hm]
  · intro p hmem hfs
    have hm : ("Stimulus file does not exist: " ++ p) ∈ checkStimulusFiles fs c := by
      simp only [checkStimulusFiles, List.mem_flatten]
      refine ⟨["Stimulus file does not exist: " ++ p], ?_, by simp⟩
      rw [List.mem_map]
      exact ⟨p, hmem, by simp [hfs]⟩
    simp [validate_config, tailChecks, List.mem_append, hm]
  · intro hne hfs
    have hm : ("Project directory does not exist: " ++ c.project_dir) ∈ checkProjectDir fs c := by
      simp [checkProjectDir, hne, hfs]
    simp [validate_config, List.mem_append, hm]
  · intro hne hfs
    have hm : ("Design file does not exist (computed path): " ++ c.design_path) ∈
        checkDesignPath fs c := by
      simp [checkDesignPath, hne, hfs]
    simp [validate_config, tailChecks, List.mem_append, hm]
  · intro t ht hexe
    have hm : ("Executable command not configured for simulator: " ++ c.simulator) ∈
        checkEdaTools c := by
      simp [checkEdaTools, ht, hexe]
    simp [validate_config, tailChecks, List.mem_append, hm]
  · intro t ht henv
    have hm : ("No environment variables configured for simulator: " ++ c.simulator) ∈
        checkEdaTools c := by
      simp [checkEdaTools, ht, henv]
    simp [validate_config, tailChecks, List.mem_append, hm]

/-- Witness for C8: a configuration listing one missing model file and one
missing stimulus file under an all-false existence oracle. -/
theorem validate_config_checks_files_witness :
    ("Model file does not exist: /m.scs" : String) ∈
      validate_config (fun _ => false)
        { SimulationConfig.default with
            model_files := [ModelEntry.list ["/m.scs", "tt"]],
            stimulus_files := ["/stim.scs"] }
    ∧ ("Stimulus file does not exist: /stim.scs" : String) ∈
      validate_config (fun _ => false)
        { SimulationConfig.default with
            model_files := [ModelEntry.list ["/m.scs", "tt"]],
            stimulus_files := ["/stim.scs"] } := by
  have h := validate_config_checks_files (fun _ => false)
    { SimulationConfig.default with
        model_files := [ModelEntry.list ["/m.scs", "tt"]],
        stimulus_files := ["/stim.scs"] }
  exact ⟨h.1 "/m.scs" ["tt"] (by simp) rfl, h.2.1 "/stim.scs" (by simp) rfl⟩

/-- C3: `get_source_commands` returns exactly the stripped environment lines
that start with `"source "`, in order; `get_export_commands` returns the
remaining stripped lines, in order, prefixed with `"export "` when missing;
on the example lines the results are `["source /opt/setup.sh"]` and
`["export FOO=bar"]`. -/
theorem source_export_commands_spec (t : EDATool) :
    t.get_source_commands =
      (t.environment_variables.map pyStrip).filter (fun l => pyStartswith l "source ")
    ∧ t.get_export_commands =
      ((t.environment_variables.map pyStrip).filter (fun l => !pyStartswith l "source ")).map
        (fun l => if pyStartswith l "export " then l else "export " ++ l)
    ∧ exampleTool.get_source_commands = ["source /opt/setup.sh"]
    ∧ exampleTool.get_export_commands = ["export FOO=bar"] := by
  refine ⟨sourceCommandsAux_eq _, exportCommandsAux_eq _, ?_, ?_⟩ <;> decide

/-! ## Theorems for claims C5, C9 -/

/-- C5: when the `testbench_config` path exists neither as given nor
relative to the task file's directory, `ConfigReader.__init__` does not
raise and keeps the empty testbench document, so every testbench-derived
field of the simulation configuration stays at its default. -/
theorem testbench_missing_defaults (fsExists : String → Bool)
    (loadTb : String → Except String TestbenchData)
    (config_file p : String) (task : TaskData) (sysd : SystemData)
    (htb : task.testbench_config = some p) (hne : p ≠ "")
    (h1 : fsExists p = false)
    (h2 : fsExists (joinPath (dirname config_file) p) = false) :
    resolveTestbench fsExists loadTb config_file task = Except.ok TestbenchData.default
    ∧ (get_simulation_config sysd task TestbenchData.default).model_files = []
    ∧ (get_simulation_config sysd task TestbenchData.default).analyses = []
    ∧ (get_simulation_config sysd task TestbenchData.default).stimulus_files = []
    ∧ (get_simulation_config sysd task TestbenchData.default).design_variables = []
    ∧ (get_simulation_config sysd task TestbenchData.default).save_nodes = []
    ∧ (get_simulation_config sysd task TestbenchData.default).initial_conditions = []
    ∧ (get_simulation_config sysd task TestbenchData.default).post_processing = none := by
  refine ⟨?_, rfl, rfl, rfl, rfl, rfl, rfl, rfl⟩
  rw [resolveTestbench, htb]
  simp [hne, h1, h2]

/-- Witness for C5 at concrete paths, oracle and documents. -/
theorem testbench_missing_defaults_witness :
    resolveTestbench (fun _ => false) (fun _ => Except.ok TestbenchData.default)
      "/work/task.yaml" ⟨none, some "tb.yaml"⟩ = Except.ok TestbenchData.default
    ∧ (get_simulation_config ⟨none, none⟩ ⟨none, some "tb.yaml"⟩
        TestbenchData.default).analyses = []
    ∧ (get_simulation_config ⟨none, none⟩ ⟨none, some "tb.yaml"⟩
        TestbenchData.default).model_files = [] := by
  have h := testbench_missing_defaults (fun _ => false)
    (fun _ => Except.ok TestbenchData.default) "/work/task.yaml" "tb.yaml"
    ⟨none, some "tb.yaml"⟩ ⟨none, none⟩ rfl (by decide) rfl rfl
  exact ⟨h.1, h.2.2.1, h.2.1⟩

/-- C9: when both the task's `simulation` section and the testbench's
`environment` section specify `temperature` and `supply_voltage`, the
testbench values (loaded later) silently win. -/
theorem environment_section_overrides (sysd : SystemData) (task : TaskData)
    (tb : TestbenchData) (s : SimSection) (e : EnvSection)
    (tT vT tE vE : Rat)
    (hsim : task.simulation = some s)
    (ht : s.temperature = some tT) (hv : s.supply_voltage = some vT)
    (henv : tb.environment = some e)
    (het : e.temperature = some tE) (hev : e.supply_voltage = some vE) :
    (get_simulation_config sysd task tb).temperature = tE
    ∧ (get_simulation_config sysd task tb).supply_voltage = vE := by
  constructor <;> simp [get_simulation_config, henv, het, hev]

/-- Witness for C9: task level sets 25 °C / 3.3 V, testbench environment
sets 85 °C / 1.2 V; the merged configuration carries the testbench values. -/
theorem environment_section_overrides_witness :
    (get_simulation_config ⟨none, none⟩
      ⟨some ⟨none, none, none, none, none, none, some 25, some (33/10)⟩, none⟩
      { TestbenchData.default with
          environment := some ⟨some 85, some (12/10)⟩ }).temperature = 85
    ∧ (get_simulation_config ⟨none, none⟩
      ⟨some ⟨none, none, none, none, none, none, some 25, some (33/10)⟩, none⟩
      { TestbenchData.default with
          environment := some ⟨some 85, some (12/10)⟩ }).supply_voltage = 12/10 :=
  environment_section_overrides ⟨none, none⟩
    ⟨some ⟨none, none, none, none, none, none, some 25, some (33/10)⟩, none⟩
    { TestbenchData.default with environment := some ⟨some 85, some (12/10)⟩ }
    ⟨none, none, none, none, none, none, some 25, some (33/10)⟩
    ⟨some 85, some (12/10)⟩ 25 (33/10) 85 (12/10) rfl rfl rfl rfl rfl rfl

/-! ## Theorems for claims C6, C7, C10 -/

/-- A concrete template set for witnesses: constant renders, no analysis
fragment templates. -/
def trivTemplates : Templates :=
  ⟨fun _ => "header", fun _ => "simulator", fun _ => "design", fun _ => "results",
   fun _ => "models", fun _ => "stimulus", fun _ => "variables", fun _ => none,
   fun _ => "saves", fun _ => "ics", fun _ => "environment", "run",
   fun _ _ _ _ _ => "post"⟩

/-- C6: a configuration declaring exactly the analyses `tran` then `dc`
yields one rendered block per analysis, with the `tran` block before the
`dc` block, inside the generated document. -/
theorem generate_script_two_analyses (tm : Templates) (c : SimulationConfig)
    (st : GenState) (pt pd : List (String × PValue))
    (h : c.analyses = [("tran", pt), ("dc", pd)]) :
    ∃ pre post,
      (generate_script tm c st).2.script_content =
        pre ++ [renderAnalysis tm "tran" pt, renderAnalysis tm "dc" pd] ++ post
      ∧ (generate_script tm c st).1 =
          String.intercalate "\n"
            (pre ++ [renderAnalysis tm "tran" pt, renderAnalysis tm "dc" pd] ++ post)
      ∧ (add_analyses tm c.analyses).length = 2 := by
  refine ⟨[tm.header c.project_name, tm.simulator c.simulator, tm.design c.design_path,
      tm.results_dir c.results_dir] ++
      (if c.model_files = [] then [] else [tm.model_file c.model_files]) ++
      (if c.stimulus_files = [] then [] else [tm.stimulus c.stimulus_files]) ++
      (if c.design_variables = [] then [] else [tm.design_variables c.design_variables]),
    (if c.save_nodes = [] then [] else [tm.save_nodes c.save_nodes]) ++
      (if c.initial_conditions = [] then [] else
        [tm.initial_conditions c.initial_conditions]) ++
      [tm.environment c.temperature, tm.run] ++
      (match c.post_processing with
       | some pp =>
         [tm.post_processing (main_analysis c) pp.plot_enabled pp.plots pp.save_data
           pp.save_items]
       | none => []), ?_, ?_, ?_⟩
  · show script_list tm c = _
    simp [script_list, add_analyses, h, List.append_assoc]
  · show String.intercalate "\n" (script_list tm c) = _
    congr 1
    simp [script_list, add_analyses, h, List.append_assoc]
  · simp [add_analyses, h]

/-- The two-analysis configuration (`tran` then `dc`) used as the C6
witness. -/
def twoAnalysesConfig : SimulationConfig :=
  { SimulationConfig.default with analyses := [("tran", []), ("dc", [])] }

/-- Witness for C6 at a concrete configuration and template set. -/
theorem generate_script_two_analyses_witness :
    ∃ pre post,
      (generate_script trivTemplates twoAnalysesConfig (GenState.mk [])).2.script_content =
        pre ++ [renderAnalysis trivTemplates "tran" [], renderAnalysis trivTemplates "dc" []]
          ++ post
      ∧ (generate_script trivTemplates twoAnalysesConfig (GenState.mk [])).1 =
          String.intercalate "\n"
            (pre ++
              [renderAnalysis trivTemplates "tran" [], renderAnalysis trivTemplates "dc" []]
              ++ post)
      ∧ (add_analyses trivTemplates twoAnalysesConfig.analyses).length = 2 :=
  generate_script_two_analyses trivTemplates twoAnalysesConfig (GenState.mk []) [] [] rfl

/-- C7: an analysis type without a matching template fragment is rendered by
the generic fallback block, which appears in the generated document; each
parameter is serialized as `?name "value"` when the value is a string and as
`?name value` (bare) otherwise. -/
theorem generic_fallback_block (tm : Templates) (c : SimulationConfig) (st : GenState)
    (t : String) (params : List (String × PValue))
    (hmem : (t, params) ∈ c.analyses) (hnone : tm.analysisFragment t = none) :
    generic_analysis t params ∈ (generate_script tm c st).2.script_content
    ∧ generic_analysis t params =
        "; " ++ pyUpper t ++ " analysis configuration\n" ++
        "analysis('" ++ t ++ "\n" ++
        String.join (params.map (fun pv =>
          match pv.2 with
          | PValue.str s => "         ?" ++ pv.1 ++ " \"" ++ s ++ "\"\n"
          | PValue.int n => "         ?" ++ pv.1 ++ " " ++ toString n ++ "\n"
          | PValue.bool b =>
            "         ?" ++ pv.1 ++ " " ++ (if b then "True" else "False") ++ "\n")) ++
        ")\n" := by
  constructor
  · have hb : renderAnalysis tm t params = generic_analysis t params := by
      rw [renderAnalysis, hnone]
    have hmem2 : renderAnalysis tm t params ∈ add_analyses tm c.analyses := by
      rw [add_analyses, List.mem_map]
      exact ⟨(t, params), hmem, rfl⟩
    rw [hb] at hmem2
    show generic_analysis t params ∈ script_list tm c
    simp [script_list, List.mem_append, hmem2]
  · have hmap : ∀ ps : List (String × PValue),
        ps.map (fun pv => genericParamLine pv.1 pv.2) =
        ps.map (fun pv =>
          match pv.2 with
          | PValue.str s => "         ?" ++ pv.1 ++ " \"" ++ s ++ "\"\n"
          | PValue.int n => "         ?" ++ pv.1 ++ " " ++ toString n ++ "\n"
          | PValue.bool b =>
            "         ?" ++ pv.1 ++ " " ++ (if b then "True" else "False") ++ "\n") := by
      intro ps
      induction ps with
      | nil => rfl
      | cons a as ih =>
        rcases a with ⟨n, v⟩
        simp only [List.map_cons, ih]
        cases v <;> rfl
    rw [generic_analysis, hmap]

/-- The unmatched-analysis configuration used as the C7 witness. -/
def unmatchedAnalysisConfig : SimulationConfig :=
  { SimulationConfig.default with
      analyses := [("noise", [("param1", PValue.str "x"), ("points", PValue.int 10)])] }

/-- Witness for C7 at a concrete configuration and template set with no
analysis fragments. -/
theorem generic_fallback_block_witness :
    generic_analysis "noise" [("param1", PValue.str "x"), ("points", PValue.int 10)] ∈
      (generate_script trivTemplates unmatchedAnalysisConfig (GenState.mk [])).2.script_content
    ∧ generic_analysis "noise" [("param1", PValue.str "x"), ("points", PValue.int 10)] =
        "; " ++ pyUpper "noise" ++ " analysis configuration\n" ++
        "analysis('" ++ "noise" ++ "\n" ++
        String.join ([("param1", PValue.str "x"), ("points", PValue.int 10)].map (fun pv =>
          match pv.2 with
          | PValue.str s => "         ?" ++ pv.1 ++ " \"" ++ s ++ "\"\n"
          | PValue.int n => "         ?" ++ pv.1 ++ " " ++ toString n ++ "\n"
          | PValue.bool b =>
            "         ?" ++ pv.1 ++ " " ++ (if b then "True" else "False") ++ "\n")) ++
        ")\n" :=
  generic_fallback_block trivTemplates unmatchedAnalysisConfig (GenState.mk []) "noise"
    [("param1", PValue.str "x"), ("points", PValue.int 10)]
    (List.mem_singleton.mpr rfl) rfl

/-- C10: `generate_script` is deterministic and leak-free — the generated
string does not depend on the generator's previous buffer, a repeated call
returns the same string, and the buffer after a call holds exactly that
call's fragments. -/
theorem generate_script_deterministic (tm : Templates) (c : SimulationConfig)
    (s1 s2 : GenState) :
    (generate_script tm c s1).1 = (generate_script tm c s2).1
    ∧ (generate_script tm c ((generate_script tm c s1).2)).1 = (generate_script tm c s1).1
    ∧ (generate_script tm c s1).2.script_content = script_list tm c :=
  ⟨rfl, rfl, rfl⟩

end SimDemo
